import Mathlib

/-!
Verification development for the chronomaly forecast-vs-actual comparison
engine and its filter pipeline.

The Python source is shallowly embedded: floats are idealised as rationals,
with `Option ℚ` standing for a float that may be NaN (`none` = NaN; the
infinities, which the claims do not touch, are not modelled).  Raw cell
strings are abstracted to the outcome of `str(...).split('|')` followed by
`float(...)` on each piece: a list of tokens, each token being a finite
number, the token "nan" (which `float` parses to NaN), or a token on which
`float` raises `ValueError`.  Fallible Python code (a raised exception)
becomes `Option`/`Except`.  `round` is Python's banker's rounding
(half-to-even); `round(x)` on NaN raises, which the embedding reflects by
returning `none` for the whole result row.
-/

attribute [local semireducible] Rat.sub Rat.add Rat.mul Rat.inv

namespace Chronomaly

/-- Python `round(q)`: nearest integer, ties to even. -/
def pyRound (q : ℚ) : ℤ :=
  let f := q.floor
  let r := q - f
  if r < 1/2 then f
  else if 1/2 < r then f + 1
  else if 2 ∣ f then f else f + 1

/-- Python `round(q, 2)`: round to 2 decimal places, ties to even. -/
def pyRound2 (q : ℚ) : ℚ := (pyRound (q * 100) : ℚ) / 100

/-- One piece of a pipe-split cell string, abstracted by what `float(piece)`
does with it: a finite numeric value, NaN (e.g. the string "nan"), or a
`ValueError` (e.g. the string "abc"). -/
inductive Tok where
  | num (q : ℚ)
  | nan
  | bad
deriving DecidableEq, Repr

/-- `float(piece)` on a token: `none` when it raises `ValueError`,
`some none` when it parses to NaN, `some (some q)` when it parses to a
finite value. -/
def tokFloat : Tok → Option (Option ℚ)
  | .num q => some (some q)
  | .nan => some none
  | .bad => none

/-- `float(actual_value)` wrapped in the comparator's `try`/`except`
(`ValueError`/`TypeError` degrade to `0.0`); NaN input stays NaN. -/
def actualFloat : Tok → Option ℚ
  | .num q => some q
  | .nan => none
  | .bad => some 0

/-- `float(forecast_parts[i]) if len(forecast_parts) > i else 0.0`:
out-of-range indices yield `0.0` without touching `float`, in-range
indices parse the token (possibly raising). -/
def pgetF (parts : List Tok) (i : ℕ) : Option (Option ℚ) :=
  match parts[i]? with
  | some t => tokFloat t
  | none => some (some 0)

/-- Outcome of the quantile-string parse in
`ForecastActualComparator._compare_metric` (point / q10 / q90, and whether
the short-quantile-count warning was issued). -/
structure ParsedForecast where
  point : Option ℚ
  q10 : Option ℚ
  q90 : Option ℚ
  warned : Bool
deriving DecidableEq, Repr

/-- The `try` block of `_compare_metric` (indices 0, 1 and 9 of the split;
`EXPECTED_QUANTILE_COUNT = 10`): if the `float` conversion of any of the
three accessed parts raises, the `except` clause zeroes all three values
and the warning is never reached; otherwise the warning fires exactly when
fewer than 10 parts are present. -/
def parseForecast (parts : List Tok) : ParsedForecast :=
  match pgetF parts 0, pgetF parts 1, pgetF parts 9 with
  | some p, some l, some u => ⟨p, l, u, decide (parts.length < 10)⟩
  | _, _, _ => ⟨some 0, some 0, some 0, false⟩

/-- Result-row statuses as the code spells them (`BELOW_P10` / `ABOVE_P90`
are the spec's `BELOW_LOWER` / `ABOVE_UPPER`). -/
inductive Status where
  | IN_RANGE
  | BELOW_P10
  | ABOVE_P90
  | NO_FORECAST
deriving DecidableEq, Repr

/-- Python `x <= y` on possibly-NaN floats: false when either is NaN. -/
def fLE (x y : Option ℚ) : Bool :=
  match x, y with
  | some a, some b => decide (a ≤ b)
  | _, _ => false

/-- Python `x < y` on possibly-NaN floats: false when either is NaN. -/
def fLT (x y : Option ℚ) : Bool :=
  match x, y with
  | some a, some b => decide (a < b)
  | _, _ => false

/-- Deviation for the `BELOW_P10` branch of `_compare_metric`. -/
def belowDev (a l : Option ℚ) : ℚ :=
  match a, l with
  | some av, some lv =>
      if lv ≠ 0 then (lv - av) / lv * 100
      else if av ≠ 0 then |av| * 100 else 0
  | _, _ => 0

/-- Deviation for the `ABOVE_P90` branch of `_compare_metric`. -/
def aboveDev (a u : Option ℚ) : ℚ :=
  match a, u with
  | some av, some uv =>
      if uv ≠ 0 then (av - uv) / uv * 100
      else if av ≠ 0 then |av| * 100 else 0
  | _, _ => 0

/-- The status/deviation decision chain of `_compare_metric` (note the
missing final `else`: when `actual` is NaN every comparison is false and
the initial `NO_FORECAST` assignment survives). -/
def classify (p l u a : Option ℚ) : Status × ℚ :=
  if p.isNone ∨ l.isNone ∨ u.isNone then (Status.NO_FORECAST, 0)
  else if l = some 0 ∧ u = some 0 ∧ p = some 0 then (Status.NO_FORECAST, 0)
  else if fLE l a = true ∧ fLE a u = true then (Status.IN_RANGE, 0)
  else if fLT a l = true then (Status.BELOW_P10, belowDev a l)
  else if fLT u a = true then (Status.ABOVE_P90, aboveDev a u)
  else (Status.NO_FORECAST, 0)

/-- A single-metric comparison result row (the per-metric part of the dict
built by `_compare_metric`; `metric` and `date` are added by the caller
model). -/
structure CmpRow where
  actual : ℤ
  forecast : ℤ
  q10 : ℤ
  q90 : ℤ
  status : Status
  deviation_pct : ℚ
deriving DecidableEq, Repr

/-- `ForecastActualComparator._compare_metric` on one metric: parse the
quantile string, coerce the actual, classify, then round everything for
the result dict.  Python's `round` raises `ValueError` on NaN, so the row
is `none` whenever any of the four rounded values is NaN. -/
def compareMetric (parts : List Tok) (aTok : Tok) : Option CmpRow :=
  let pf := parseForecast parts
  let a := actualFloat aTok
  let sd := classify pf.point pf.q10 pf.q90 a
  match a, pf.point, pf.q10, pf.q90 with
  | some av, some pv, some lv, some uv =>
      some ⟨pyRound av, pyRound pv, pyRound lv, pyRound uv, sd.1, pyRound2 sd.2⟩
  | _, _, _, _ => none

/-- The spec's §8 scenario forecast cell
`"1000|900|920|950|975|1000|1025|1050|1080|1100"`. -/
def scenarioParts : List Tok :=
  [.num 1000, .num 900, .num 920, .num 950, .num 975,
   .num 1000, .num 1025, .num 1050, .num 1080, .num 1100]

example : compareMetric scenarioParts (Tok.num 950)
    = some ⟨950, 1000, 900, 1100, Status.IN_RANGE, 0⟩ := by decide

example : compareMetric scenarioParts (Tok.num 600)
    = some ⟨600, 1000, 900, 1100, Status.BELOW_P10, 3333/100⟩ := by decide

example : compareMetric scenarioParts (Tok.num 1150)
    = some ⟨1150, 1000, 900, 1100, Status.ABOVE_P90, 455/100⟩ := by decide

/-! ### Cumulative-volume selection

Both cumulative filters are modelled on an association list of
`(metric id, ranking value)` pairs — the per-metric ranking value the two
implementations extract from their respective tables (summed parsed point
forecasts for the pre-filter, the `forecast` result column for the
detector's post filter).  Metric names and row labels are abstracted to
`ℕ`. -/

/-- `sort_values(ascending=False)` on the ranking value (stable sort,
descending). -/
def sortVDesc (rows : List (ℕ × ℚ)) : List (ℕ × ℚ) :=
  List.insertionSort (fun x y => y.2 ≤ x.2) rows

/-- `cumsum` with running accumulator. -/
def cumsumFrom (acc : ℚ) : List ℚ → List ℚ
  | [] => []
  | x :: xs => (acc + x) :: cumsumFrom (acc + x) xs

/-- pandas `Series.cumsum`. -/
def cumsum (l : List ℚ) : List ℚ := cumsumFrom 0 l

/-- pandas `Series.min` on a list of values (`0` on the empty list, which
neither caller reaches). -/
def listMin : List ℚ → ℚ
  | [] => 0
  | [x] => x
  | x :: y :: xs => min x (listMin (y :: xs))

/-- `ForecastActualComparator._filter_cumulative_threshold` (the
post-detection cumulative filter): sort the ranking values descending,
find the first rank whose cumulative share reaches `thr`
(`cumulative_pct >= threshold_pct`, first `True` via `idxmax`), take the
minimum value among the ranks up to that point (all of them when the mask
is all-`False`), and keep every input row whose value is at least that
minimum, in original order.  `postCutoff` is the code's `min_threshold`
variable; `cumThresholdPost` is the returned filter. -/
def postCutoff (thr : ℚ) (rows : List (ℕ × ℚ)) : ℚ :=
  let total := (rows.map Prod.snd).sum
  let svals := (sortVDesc rows).map Prod.snd
  let cums := cumsum svals
  let k := cums.findIdx (fun c => decide (thr ≤ c / total))
  if k < cums.length then listMin (svals.take (k + 1)) else listMin svals

/-- The filtered table `_filter_cumulative_threshold` returns: empty and
zero-total inputs unchanged, otherwise the rows at or above
`min_threshold` (`postCutoff`). -/
def cumThresholdPost (thr : ℚ) (rows : List (ℕ × ℚ)) : List (ℕ × ℚ) :=
  if rows.isEmpty then rows
  else if (rows.map Prod.snd).sum = 0 then rows
  else rows.filter (fun p => decide (postCutoff thr rows ≤ p.2))

/-- `CumulativeThresholdFilter.filter` (the pre-detection cumulative
filter), reduced to the metric names it retains: sort the per-metric
values descending, keep exactly the sorted entries whose cumulative share
is at most `thr` (`cumulative_pct <= self.threshold_pct`), falling back to
the single top-ranked metric when that set is empty; a zero total (or no
metrics) leaves the input unchanged, i.e. every metric is retained. -/
def preSelect (thr : ℚ) (vals : List (ℕ × ℚ)) : List ℕ :=
  if vals.isEmpty then vals.map Prod.fst
  else
    let sorted := sortVDesc vals
    let total := (sorted.map Prod.snd).sum
    if total = 0 then vals.map Prod.fst
    else
      let cums := cumsum (sorted.map Prod.snd)
      let keep := ((sorted.zip cums).filter
        (fun pc => decide (pc.2 / total ≤ thr))).map (fun pc => pc.1.1)
      match keep, sorted with
      | [], s :: _ => [s.1]
      | k, _ => k

/-- The spec's §8 cumulative-selector scenario: per-metric forecast
volumes `{a: 5000, b: 3000, c: 100, d: 50}` with metric ids
`a = 0, b = 1, c = 2, d = 3`. -/
def scenarioVolumes : List (ℕ × ℚ) :=
  [(0, 5000), (1, 3000), (2, 100), (3, 50)]

example : preSelect (19/20) scenarioVolumes = [0] := by decide

example : (cumThresholdPost (19/20) scenarioVolumes).map Prod.fst = [0, 1] := by decide

/-! ### Detection engine

`ForecastActualComparator.detect` with default post-processing options
(no dimension split, no cumulative threshold, no anomaly/deviation
filter, no string formatting), so `_post_process_results` is the
identity.  The injected `DataTransformer.pivot_table` has no source under
`src/`; its output — the pivoted wide actual table, whose
`reset_index()` leaves it with positional labels `0, 1, …` — is taken as
the input `ATable`, so everything modelled here (`_validate_inputs`,
`_prepare_data`'s column standardization, `_compare_all_metrics`) is code
of `forecast_actual.py`.  Dates, metric names and row labels are
abstracted to `ℕ`; cells absent from a row's association list stand for
the cells `_standardize_columns` fills (`"0|0|0|0|0|0|0|0|0|0"` for
forecast, `0.0` for actual). -/

/-- A forecast row: its dataframe index label, its date cell, and its
metric cells (pipe-split quantile strings). -/
structure FEntry where
  label : ℕ
  date : ℕ
  cells : List (ℕ × List Tok)
deriving DecidableEq, Repr

/-- A pivoted-actual row (after `reset_index()` its label is its
position), with numeric metric cells. -/
structure AEntry where
  date : ℕ
  cells : List (ℕ × ℚ)
deriving DecidableEq, Repr

/-- Forecast table: metric columns (the date column is kept separate,
mirroring `exclude_columns = ['date']`) and rows. -/
structure FTable where
  cols : List ℕ
  rows : List FEntry
deriving DecidableEq, Repr

/-- Pivoted actual table. -/
structure ATable where
  cols : List ℕ
  rows : List AEntry
deriving DecidableEq, Repr

/-- Cell lookup in a row's association list. -/
def lookupCell {α : Type} (cells : List (ℕ × α)) (c : ℕ) : Option α :=
  (cells.find? (fun p => p.1 == c)).map Prod.snd

/-- The forecast fill value `'0|0|0|0|0|0|0|0|0|0'` as a token list. -/
def zeroQuantCell : List Tok := List.replicate 10 (Tok.num 0)

/-- `sorted(forecast_cols.union(actual_cols))`: the standardized metric
column union. -/
def allColumns (ft : FTable) (at_ : ATable) : List ℕ :=
  ((ft.cols ++ at_.cols).dedup).insertionSort (· ≤ ·)

/-- Standardized forecast cell: missing/NaN cells become the zero
quantile string. -/
def stdFCell (fe : FEntry) (c : ℕ) : List Tok :=
  (lookupCell fe.cells c).getD zeroQuantCell

/-- Standardized actual cell: missing/NaN cells become `0.0`. -/
def stdACell (ae : AEntry) (c : ℕ) : ℚ :=
  (lookupCell ae.cells c).getD 0

/-- One detection result row: the forecast row's date, the metric name,
and the per-metric comparison. -/
structure RRow where
  date : ℕ
  metric : ℕ
  row : CmpRow
deriving DecidableEq, Repr

/-- One `_compare_metric` invocation inside the row loop. -/
def compareCell (c : ℕ) (fe : FEntry) (ae : AEntry) : Option RRow :=
  (compareMetric (stdFCell fe c) (Tok.num (stdACell ae c))).map
    (fun r => ⟨fe.date, c, r⟩)

/-- The inner `for column in all_columns` loop for one forecast/actual
row pair: one appended result per column (`none` when any comparison
raises). -/
def rowResults (cols : List ℕ) (fe : FEntry) (ae : AEntry) : Option (List RRow) :=
  match cols with
  | [] => some []
  | c :: cs =>
    match compareCell c fe ae, rowResults cs fe ae with
    | some r, some rs => some (r :: rs)
    | _, _ => none

/-- `_compare_all_metrics`: iterate the forecast rows in order; a row
whose index label is not a label of the actual table
(`idx in actual_std.index` — labels, not dates!) is skipped; otherwise
one result row per metric column is appended. -/
def detectRows (cols : List ℕ) (aRows : List AEntry) : List FEntry → Option (List RRow)
  | [] => some []
  | fe :: rest =>
    match aRows[fe.label]? with
    | none => detectRows cols aRows rest
    | some ae =>
      match rowResults cols fe ae, detectRows cols aRows rest with
      | some rs, some rest2 => some (rs ++ rest2)
      | _, _ => none

/-- `ForecastActualComparator.detect` at default options:
`_validate_inputs` (empty-table `ValueError`s naming the stage), then the
standardized comparison loop; an uncaught `ValueError` from `round` on a
NaN quantile aborts the pass. -/
def detect (ft : FTable) (at_ : ATable) : Except String (List RRow) :=
  if ft.rows.isEmpty then Except.error "Forecast DataFrame is empty"
  else if at_.rows.isEmpty then Except.error "Actual DataFrame is empty"
  else
    match detectRows (allColumns ft at_) at_.rows ft.rows with
    | some rs => Except.ok rs
    | none => Except.error "ValueError: cannot convert float NaN to integer"

/-- The load-validation half of
`AnomalyDetectionWorkflow._execute_detection`: a reader returning `None`
or an empty table is a fatal precondition error naming the stage
(forecast before actual, since the forecast reader runs first). -/
def executeDetectionCheck (fload : Option FTable) (aload : Option ATable) :
    Except String (FTable × ATable) :=
  match fload with
  | none => Except.error "Forecast reader returned empty dataset. Cannot proceed with anomaly detection."
  | some f =>
    if f.rows.isEmpty then
      Except.error "Forecast reader returned empty dataset. Cannot proceed with anomaly detection."
    else
      match aload with
      | none => Except.error "Actual reader returned empty dataset. Cannot proceed with anomaly detection."
      | some a =>
        if a.rows.isEmpty then
          Except.error "Actual reader returned empty dataset. Cannot proceed with anomaly detection."
        else Except.ok (f, a)

/-- C6 example: two forecast rows with labels 0, 1 and dates 1, 2; one
actual row (label 0 after `reset_index`) with date 2. -/
def exForecast : FTable :=
  ⟨[7], [⟨0, 1, [(7, [.num 10, .num 5, .num 0, .num 0, .num 0,
                       .num 0, .num 0, .num 0, .num 0, .num 20])]⟩,
         ⟨1, 2, [(7, [.num 10, .num 5, .num 0, .num 0, .num 0,
                       .num 0, .num 0, .num 0, .num 0, .num 20])]⟩]⟩

/-- C6 example actual table: a single pivoted row with date 2. -/
def exActual : ATable := ⟨[7], [⟨2, [(7, 8)]⟩]⟩

/-- `Except` has no derived decidable equality; this instance makes the
detection results evaluable by `decide`. -/
instance {ε α : Type} [DecidableEq ε] [DecidableEq α] : DecidableEq (Except ε α)
  | .error a, .error b =>
      decidable_of_iff (a = b) ⟨fun h => by rw [h], fun h => by cases h; rfl⟩
  | .error _, .ok _ => isFalse (fun h => by cases h)
  | .ok _, .error _ => isFalse (fun h => by cases h)
  | .ok a, .ok b =>
      decidable_of_iff (a = b) ⟨fun h => by rw [h], fun h => by cases h; rfl⟩

example : detect exForecast exActual
    = Except.ok [⟨1, 7, ⟨8, 10, 5, 20, Status.IN_RANGE, 0⟩⟩] := by decide

/-! ### Construction-time configuration validation -/

/-- `CumulativeThresholdFilter.__init__`: rejects a threshold outside
`(0, 1]` with a `ValueError`, otherwise stores it. -/
def mkCumulativeThresholdFilter (threshold_pct : ℚ) : Except String ℚ :=
  if 0 < threshold_pct ∧ threshold_pct ≤ 1 then Except.ok threshold_pct
  else Except.error "threshold_pct must be between 0 and 1"

/-- The configuration a constructed `ForecastActualComparator` stores
(the fields C8 is about). -/
structure ComparatorCfg where
  dimension_names : Option (List ℕ)
  cumulative_threshold : Option ℚ
deriving DecidableEq, Repr

/-- `ForecastActualComparator.__init__` +
`_validate_dimension_names`: when `dimension_names` is given and the
transformer exposes a `columns` attribute (here `transformerCols =
some _`), the two lists must be equal in order; every other parameter —
including `cumulative_threshold` — is stored without validation. -/
def mkForecastActualComparator (transformerCols : Option (List ℕ))
    (dimension_names : Option (List ℕ)) (cumulative_threshold : Option ℚ) :
    Except String ComparatorCfg :=
  match dimension_names with
  | none => Except.ok ⟨none, cumulative_threshold⟩
  | some dn =>
    match transformerCols with
    | none => Except.ok ⟨some dn, cumulative_threshold⟩
    | some tc =>
      if dn = tc then Except.ok ⟨some dn, cumulative_threshold⟩
      else Except.error "dimension_names must match transformer.columns in the same order"

/-- `BigQueryDataWriter.__init__` restricted to its pure configuration
checks (the service-account file checks touch the filesystem and are out
of scope of C8): required `dataset`/`table` and valid create/write
dispositions, all raised at construction time. -/
def mkBigQueryDataWriter (dataset table : Option String)
    (create_disposition write_disposition : String) : Except String Unit :=
  if dataset.isNone then Except.error "dataset parameter is required"
  else if table.isNone then Except.error "table parameter is required"
  else if ¬ (create_disposition ∈ ["CREATE_IF_NEEDED", "CREATE_NEVER"]) then
    Except.error "Invalid create_disposition"
  else if ¬ (write_disposition ∈ ["WRITE_TRUNCATE", "WRITE_APPEND", "WRITE_EMPTY"]) then
    Except.error "Invalid write_disposition"
  else Except.ok ()

/-! ### AnomalyFilter (post-filter) -/

/-- Row predicate of `AnomalyFilter.process`:
`status.isin(['BELOW_P10', 'ABOVE_P90'])`. -/
def isAnomalyRow (r : RRow) : Bool :=
  (r.row.status == Status.BELOW_P10) || (r.row.status == Status.ABOVE_P90)

/-- `AnomalyFilter.process`: returns an empty table unchanged, otherwise
keeps exactly the `BELOW_P10`/`ABOVE_P90` rows.  The constructor's
`exclude_no_forecast` flag is stored but never consulted. -/
def anomalyFilterProcess (exclude_no_forecast : Bool) (rows : List RRow) : List RRow :=
  if rows.isEmpty then rows
  else rows.filter isAnomalyRow

/-- `Except` success test (Python: construction completed without
raising). -/
def isOkE {ε α : Type} : Except ε α → Bool
  | .ok _ => true
  | .error _ => false

/-!  ## Claim theorems -/

/-- C9: the status filter is idempotent — applying `AnomalyFilter.process`
twice to any result table yields exactly the table one application
yields. -/
theorem C9_status_filter_idempotent (b : Bool) (rows : List RRow) :
    anomalyFilterProcess b (anomalyFilterProcess b rows) = anomalyFilterProcess b rows := by
  unfold anomalyFilterProcess
  by_cases h : rows.isEmpty
  · simp [h]
  · simp only [h, if_false, Bool.false_eq_true]
    by_cases h2 : (rows.filter isAnomalyRow).isEmpty
    · simp [h2]
    · simp [h2, List.filter_filter]

/-- C10: the `exclude_no_forecast` constructor flag of `AnomalyFilter`
has no effect — for either flag value, `process` returns exactly the rows
whose status is `BELOW_P10` or `ABOVE_P90` (so `NO_FORECAST` and
`IN_RANGE` rows are removed even with `exclude_no_forecast = False`). -/
theorem C10_exclude_no_forecast_flag_no_effect (b1 b2 : Bool) (rows : List RRow) :
    anomalyFilterProcess b1 rows = rows.filter isAnomalyRow
    ∧ anomalyFilterProcess b1 rows = anomalyFilterProcess b2 rows := by
  refine ⟨?_, rfl⟩
  unfold anomalyFilterProcess
  by_cases h : rows.isEmpty
  · rw [List.isEmpty_iff] at h
    simp [h]
  · simp [h]

/-- C7: an empty (or missing) forecast or actual table at the detection
boundary raises immediately, with an error naming the stage: the
comparator's `_validate_inputs` raises "Forecast DataFrame is empty" /
"Actual DataFrame is empty", and the workflow's load validation raises
"Forecast reader returned empty dataset…" / "Actual reader returned
empty dataset…" (forecast is checked first, so in particular an empty
forecast table always produces the forecast-stage error). -/
theorem C7_empty_input_validation (ft : FTable) (at_ : ATable) (al : Option ATable) :
    (ft.rows = [] → detect ft at_ = Except.error "Forecast DataFrame is empty")
    ∧ (ft.rows ≠ [] → at_.rows = [] →
        detect ft at_ = Except.error "Actual DataFrame is empty")
    ∧ (executeDetectionCheck none al
        = Except.error "Forecast reader returned empty dataset. Cannot proceed with anomaly detection.")
    ∧ (ft.rows = [] → executeDetectionCheck (some ft) al
        = Except.error "Forecast reader returned empty dataset. Cannot proceed with anomaly detection.")
    ∧ (ft.rows ≠ [] → executeDetectionCheck (some ft) none
        = Except.error "Actual reader returned empty dataset. Cannot proceed with anomaly detection.") := by
  refine ⟨fun h => ?_, fun h h2 => ?_, rfl, fun h => ?_, fun h => ?_⟩
  · simp [detect, h]
  · simp [detect, h, h2]
  · simp [executeDetectionCheck, h]
  · simp [executeDetectionCheck, h]

/-- C7 witness: the two validation errors at concrete empty tables. -/
theorem C7_witness :
    detect ⟨[], []⟩ exActual = Except.error "Forecast DataFrame is empty"
    ∧ detect exForecast ⟨[], []⟩ = Except.error "Actual DataFrame is empty"
    ∧ executeDetectionCheck (some ⟨[], []⟩) (some exActual)
        = Except.error "Forecast reader returned empty dataset. Cannot proceed with anomaly detection."
    ∧ executeDetectionCheck (some exForecast) none
        = Except.error "Actual reader returned empty dataset. Cannot proceed with anomaly detection." :=
  ⟨(C7_empty_input_validation ⟨[], []⟩ exActual none).1 rfl,
   (C7_empty_input_validation exForecast ⟨[], []⟩ none).2.1 (by decide) rfl,
   (C7_empty_input_validation ⟨[], []⟩ exActual (some exActual)).2.2.2.1 rfl,
   (C7_empty_input_validation exForecast ⟨[], []⟩ none).2.2.2.2 (by decide)⟩

/-- C8 counterexample: an invalid threshold percentage does *not* fail
construction of every pipeline component — `ForecastActualComparator`
accepts `cumulative_threshold = -3` at construction (only the
pre-detection `CumulativeThresholdFilter` validates its threshold). -/
theorem C8_counterexample :
    isOkE (mkForecastActualComparator none none (some (-3))) = true
    ∧ isOkE (mkCumulativeThresholdFilter (-3)) = false := by decide

/-- C8 amended: `CumulativeThresholdFilter` construction succeeds exactly
for thresholds in `(0, 1]`; comparator construction succeeds exactly when
the dimension names match the transformer's exposed column order, and is
entirely independent of `cumulative_threshold` (which is stored
unvalidated); BigQuery-writer construction succeeds exactly when both
dispositions are among the valid enumerations (given `dataset` and
`table`). -/
theorem C8_amended (t : ℚ) (tc dn : List ℕ) (ct : Option ℚ) (ds tb cd wd : String) :
    (isOkE (mkCumulativeThresholdFilter t) = true ↔ (0 < t ∧ t ≤ 1))
    ∧ (isOkE (mkForecastActualComparator (some tc) (some dn) ct) = true ↔ dn = tc)
    ∧ (isOkE (mkForecastActualComparator (some tc) (some dn) ct)
        = isOkE (mkForecastActualComparator (some tc) (some dn) none))
    ∧ (isOkE (mkBigQueryDataWriter (some ds) (some tb) cd wd) = true
        ↔ (cd ∈ ["CREATE_IF_NEEDED", "CREATE_NEVER"]
            ∧ wd ∈ ["WRITE_TRUNCATE", "WRITE_APPEND", "WRITE_EMPTY"])) := by
  refine ⟨?_, ?_, ?_, ?_⟩
  · unfold mkCumulativeThresholdFilter
    by_cases h : 0 < t ∧ t ≤ 1 <;> simp [h, isOkE]
  · unfold mkForecastActualComparator
    by_cases h : dn = tc <;> simp [h, isOkE]
  · unfold mkForecastActualComparator
    by_cases h : dn = tc <;> simp [h, isOkE]
  · unfold mkBigQueryDataWriter
    by_cases h1 : cd ∈ ["CREATE_IF_NEEDED", "CREATE_NEVER"] <;>
      by_cases h2 : wd ∈ ["WRITE_TRUNCATE", "WRITE_APPEND", "WRITE_EMPTY"] <;>
      simp [h1, h2, isOkE]

/-- `classify` on four finite values, rewritten to plain propositional
conditions. -/
theorem classify_some (p l u a : ℚ) :
    classify (some p) (some l) (some u) (some a) =
      if l = 0 ∧ u = 0 ∧ p = 0 then (Status.NO_FORECAST, 0)
      else if l ≤ a ∧ a ≤ u then (Status.IN_RANGE, 0)
      else if a < l then (Status.BELOW_P10, belowDev (some a) (some l))
      else if u < a then (Status.ABOVE_P90, aboveDev (some a) (some u))
      else (Status.NO_FORECAST, 0) := by
  unfold classify fLE fLT
  simp only [Option.isNone_some, Bool.false_eq_true, or_self, if_false,
    Option.some.injEq, decide_eq_true_eq, false_or]

/-- `round(0.0, 2) = 0`. -/
theorem pyRound2_zero : pyRound2 0 = 0 := by decide

/-- C1 (amended): for a valid parsed triple (no NaN, not all zero) and a
finite coerced actual: `lower ≤ actual ≤ upper` gives `IN_RANGE` with
deviation 0; `actual < lower` with `lower ≠ 0` gives `BELOW_P10` (the
spec's `BELOW_LOWER`) with deviation `round((lower - actual)/lower*100, 2)`;
and — the amendment — `actual > upper` with `upper ≠ 0` gives `ABOVE_P90`
(the spec's `ABOVE_UPPER`) with deviation
`round((actual - upper)/upper*100, 2)` *provided `actual` is not also
below `lower`* (the code tests the below-lower branch first, so with
reversed bounds `lower > upper` an actual above `upper` can instead be
classified `BELOW_P10`). -/
theorem C1_amended (parts : List Tok) (aTok : Tok) (p l u a : ℚ) (w : Bool)
    (hp : parseForecast parts = ⟨some p, some l, some u, w⟩)
    (ha : actualFloat aTok = some a)
    (hnz : ¬ (p = 0 ∧ l = 0 ∧ u = 0)) :
    (l ≤ a → a ≤ u → compareMetric parts aTok
        = some ⟨pyRound a, pyRound p, pyRound l, pyRound u, Status.IN_RANGE, 0⟩)
    ∧ (a < l → l ≠ 0 → compareMetric parts aTok
        = some ⟨pyRound a, pyRound p, pyRound l, pyRound u, Status.BELOW_P10,
                pyRound2 ((l - a) / l * 100)⟩)
    ∧ (u < a → l ≤ a → u ≠ 0 → compareMetric parts aTok
        = some ⟨pyRound a, pyRound p, pyRound l, pyRound u, Status.ABOVE_P90,
                pyRound2 ((a - u) / u * 100)⟩) := by
  have hnz2 : ¬ (l = 0 ∧ u = 0 ∧ p = 0) := fun ⟨h1, h2, h3⟩ => hnz ⟨h3, h1, h2⟩
  refine ⟨fun h1 h2 => ?_, fun h1 h2 => ?_, fun h1 h2 h3 => ?_⟩ <;>
    simp only [compareMetric, hp, ha, classify_some, hnz2, if_false]
  · rw [if_pos ⟨h1, h2⟩]
    exact congrArg some (by rw [pyRound2_zero])
  · rw [if_neg (fun hc => absurd h1 (not_lt_of_le hc.1)), if_pos h1]
    simp [belowDev, h2]
  · rw [if_neg (fun hc => absurd h1 (not_lt_of_le hc.2)),
      if_neg (not_lt_of_le h2), if_pos h1]
    simp [aboveDev, h3]

/-- A quantile string with reversed bounds (`lower = 10 > upper = 5`),
used to refute C1's unguarded `ABOVE_UPPER` branch. -/
def cexParts : List Tok :=
  [.num 1, .num 10, .num 0, .num 0, .num 0, .num 0, .num 0, .num 0, .num 0, .num 5]

/-- C1 counterexample: parsed triple `(point, lower, upper) = (1, 10, 5)`
is valid (no NaN, not all zero), the actual `7` satisfies
`actual > upper ≠ 0`, yet the produced status is `BELOW_P10`, not the
`ABOVE_UPPER` (`ABOVE_P90`) the claim requires. -/
theorem C1_counterexample :
    parseForecast cexParts = ⟨some 1, some 10, some 5, false⟩
    ∧ ¬ ((1:ℚ) = 0 ∧ (10:ℚ) = 0 ∧ (5:ℚ) = 0)
    ∧ actualFloat (Tok.num 7) = some 7
    ∧ (5:ℚ) < 7 ∧ (5:ℚ) ≠ 0
    ∧ (compareMetric cexParts (Tok.num 7)).map CmpRow.status = some Status.BELOW_P10
    ∧ Status.BELOW_P10 ≠ Status.ABOVE_P90 := by decide

/-- C1 witness: the spec's three §8 scenarios through `C1_amended` —
actuals 950 / 600 / 1150 against
`"1000|900|920|950|975|1000|1025|1050|1080|1100"`. -/
theorem C1_witness :
    compareMetric scenarioParts (Tok.num 950)
      = some ⟨pyRound 950, pyRound 1000, pyRound 900, pyRound 1100, Status.IN_RANGE, 0⟩
    ∧ compareMetric scenarioParts (Tok.num 600)
      = some ⟨pyRound 600, pyRound 1000, pyRound 900, pyRound 1100, Status.BELOW_P10,
              pyRound2 ((900 - 600) / 900 * 100)⟩
    ∧ compareMetric scenarioParts (Tok.num 1150)
      = some ⟨pyRound 1150, pyRound 1000, pyRound 900, pyRound 1100, Status.ABOVE_P90,
              pyRound2 ((1150 - 1100) / 1100 * 100)⟩ :=
  ⟨(C1_amended scenarioParts (Tok.num 950) 1000 900 1100 950 false
      (by decide) (by decide) (by decide)).1 (by norm_num) (by norm_num),
   (C1_amended scenarioParts (Tok.num 600) 1000 900 1100 600 false
      (by decide) (by decide) (by decide)).2.1 (by norm_num) (by norm_num),
   (C1_amended scenarioParts (Tok.num 1150) 1000 900 1100 1150 false
      (by decide) (by decide) (by decide)).2.2 (by norm_num) (by norm_num) (by norm_num)⟩

/-- A forecast cell whose point field is the parseable token "nan". -/
def nanParts : List Tok :=
  [.nan, .num 1, .num 0, .num 0, .num 0, .num 0, .num 0, .num 0, .num 0, .num 2]

/-- C2 (code bug): for a NaN quantile the decision chain does set
`NO_FORECAST` (second conjunct), exactly as the claim's
"any of them is not a number" disjunct says — but the result-dict
construction then calls Python `round` on the NaN value, which raises
`ValueError: cannot convert float NaN to integer`, so no result row is
ever produced (first conjunct: the comparison aborts instead of
returning a row). -/
theorem C2_nan_forecast_raises :
    compareMetric nanParts (Tok.num 5) = none
    ∧ (classify (parseForecast nanParts).point (parseForecast nanParts).q10
        (parseForecast nanParts).q90 (actualFloat (Tok.num 5))).1
        = Status.NO_FORECAST := by decide

/-- The split of a cell like `"abc"`: one token, which `float` rejects. -/
def badOnlyParts : List Tok := [.bad]

/-- The split of a 10-field cell whose third field is unparseable but
whose point/lower/upper fields are fine. -/
def badMiddleParts : List Tok :=
  [.num 1, .num 2, .bad, .num 0, .num 0, .num 0, .num 0, .num 0, .num 0, .num 3]

/-- C5 counterexample, refuting both conjuncts as stated: (a) on the
short sequence `["abc"]` the missing values do degrade to `0.0` but *no*
warning is recorded (the `float` failure jumps to the `except` clause
before the warning statement); (b) on a full-length sequence whose third
element fails numeric parsing, the three outputs are *not* all zero —
only indices 0, 1 and 9 are ever parsed. -/
theorem C5_counterexample :
    (parseForecast badOnlyParts).warned = false
    ∧ badOnlyParts.length < 10
    ∧ parseForecast badOnlyParts = ⟨some 0, some 0, some 0, false⟩
    ∧ Tok.bad ∈ badMiddleParts
    ∧ parseForecast badMiddleParts = ⟨some 1, some 2, some 3, false⟩
    ∧ ¬ ((some 1 : Option ℚ) = some 0 ∧ (some 2 : Option ℚ) = some 0
          ∧ (some 3 : Option ℚ) = some 0) := by decide

/-- C5 (amended): quantile parsing is a total function (never raises):
if the `float` conversions at the three *used* indices (0, lower 1,
upper 9) all succeed, the parse returns them — out-of-range indices
degrading to `0.0` (third conjunct) — and records the short-count warning
exactly when fewer than 10 fields are present; if the conversion at any
used index fails, all three outputs become `0.0` with no warning; and the
all-zero triple is then classified `NO_FORECAST` for every actual. -/
theorem C5_amended (parts : List Tok) (aTok : Tok) :
    (∀ p l u, pgetF parts 0 = some p → pgetF parts 1 = some l → pgetF parts 9 = some u →
        parseForecast parts = ⟨p, l, u, decide (parts.length < 10)⟩)
    ∧ ((pgetF parts 0 = none ∨ pgetF parts 1 = none ∨ pgetF parts 9 = none) →
        parseForecast parts = ⟨some 0, some 0, some 0, false⟩)
    ∧ (parts.length ≤ 9 → pgetF parts 9 = some (some 0))
    ∧ (classify (some 0) (some 0) (some 0) (actualFloat aTok)).1 = Status.NO_FORECAST := by
  refine ⟨fun p l u h0 h1 h9 => ?_, fun h => ?_, fun h => ?_, ?_⟩
  · unfold parseForecast
    rw [h0, h1, h9]
  · unfold parseForecast
    rcases h with h | h | h <;> rw [h] <;>
      cases pgetF parts 0 <;> cases pgetF parts 1 <;> cases pgetF parts 9 <;> rfl
  · unfold pgetF
    rw [List.getElem?_eq_none (by omega)]
  · unfold classify
    simp

/-- C5 witness: `C5_amended` at the one-field cell `"5"` (short count,
all used indices parse: missing lower/upper become `0.0` and the warning
fires) and at an arbitrary actual token. -/
theorem C5_witness :
    parseForecast [Tok.num 5] = ⟨some 5, some 0, some 0, true⟩
    ∧ pgetF [Tok.num 5] 9 = some (some 0)
    ∧ (classify (some 0) (some 0) (some 0) (actualFloat (Tok.num 3))).1
        = Status.NO_FORECAST :=
  ⟨(C5_amended [Tok.num 5] (Tok.num 3)).1 (some 5) (some 0) (some 0)
      (by decide) (by decide) (by decide),
   (C5_amended [Tok.num 5] (Tok.num 3)).2.2.1 (by decide),
   (C5_amended [Tok.num 5] (Tok.num 3)).2.2.2⟩

/-- The inner column loop emits exactly one result row per metric
column when it succeeds. -/
theorem rowResults_length (fe : FEntry) (ae : AEntry) :
    ∀ (cols : List ℕ) (rs : List RRow),
      rowResults cols fe ae = some rs → rs.length = cols.length := by
  intro cols
  induction cols with
  | nil => intro rs h; cases h; rfl
  | cons c cs ih =>
    intro rs h
    unfold rowResults at h
    cases hc : compareCell c fe ae with
    | none => rw [hc] at h; cases h
    | some r =>
      rw [hc] at h
      cases hr : rowResults cs fe ae with
      | none => rw [hr] at h; cases h
      | some rest =>
        rw [hr] at h
        cases h
        simp [ih rest hr]

/-- Unfolding equation for `detectRows` on a nonempty forecast-row
list. -/
theorem detectRows_cons (cols : List ℕ) (aRows : List AEntry) (fe : FEntry)
    (rest : List FEntry) :
    detectRows cols aRows (fe :: rest)
      = match aRows[fe.label]? with
        | none => detectRows cols aRows rest
        | some ae =>
          match rowResults cols fe ae, detectRows cols aRows rest with
          | some rs, some rest2 => some (rs ++ rest2)
          | _, _ => none := rfl

/-- Skipped forecast rows (index label out of the actual table's label
range) are no-ops for the row loop: dropping them changes nothing. -/
theorem detectRows_filter_labels (cols : List ℕ) (aRows : List AEntry) :
    ∀ fRows : List FEntry,
      detectRows cols aRows fRows
        = detectRows cols aRows
            (fRows.filter (fun fe => decide (fe.label < aRows.length))) := by
  intro fRows
  induction fRows with
  | nil => rfl
  | cons fe rest ih =>
    by_cases hl : fe.label < aRows.length
    · have hfil : (fe :: rest).filter (fun fe => decide (fe.label < aRows.length))
          = fe :: rest.filter (fun fe => decide (fe.label < aRows.length)) := by
        simp [List.filter_cons, hl]
      have hget : aRows[fe.label]? = some (aRows.get ⟨fe.label, hl⟩) :=
        List.getElem?_eq_some_iff.mpr ⟨hl, rfl⟩
      rw [hfil, detectRows_cons, detectRows_cons, hget, ih]
    · have hfil : (fe :: rest).filter (fun fe => decide (fe.label < aRows.length))
          = rest.filter (fun fe => decide (fe.label < aRows.length)) := by
        simp [List.filter_cons, hl]
      have hget : aRows[fe.label]? = none := List.getElem?_eq_none (by omega)
      rw [hfil, detectRows_cons, hget]
      exact ih

/-- C6 (amended): when the row loop completes, the result contains
exactly one row per (forecast row whose positional index label is a label
of the standardized actual table, i.e. `label < len(actual)`) × (metric
column); forecast rows whose label is out of range are skipped without
error and contribute nothing — the matching is by dataframe index label
(`idx in actual_std.index`), not by time key. -/
theorem C6_amended (cols : List ℕ) (aRows : List AEntry) (fRows : List FEntry)
    (rs : List RRow) (h : detectRows cols aRows fRows = some rs) :
    rs.length
      = (fRows.filter (fun fe => decide (fe.label < aRows.length))).length * cols.length
    ∧ detectRows cols aRows fRows
        = detectRows cols aRows
            (fRows.filter (fun fe => decide (fe.label < aRows.length))) := by
  refine ⟨?_, detectRows_filter_labels cols aRows fRows⟩
  induction fRows generalizing rs with
  | nil => cases h; simp
  | cons fe rest ih =>
    rw [detectRows_cons] at h
    by_cases hl : fe.label < aRows.length
    · have hget : aRows[fe.label]? = some (aRows.get ⟨fe.label, hl⟩) :=
        List.getElem?_eq_some_iff.mpr ⟨hl, rfl⟩
      rw [hget] at h
      have h4 : (match rowResults cols fe (aRows.get ⟨fe.label, hl⟩),
            detectRows cols aRows rest with
          | some rs1, some rest2 => some (rs1 ++ rest2)
          | _, _ => none) = some rs := h
      cases hr : rowResults cols fe (aRows.get ⟨fe.label, hl⟩) with
      | none =>
        rw [hr] at h4
        exact absurd h4 (by simp)
      | some rs1 =>
        rw [hr] at h4
        cases hrest : detectRows cols aRows rest with
        | none =>
          rw [hrest] at h4
          exact absurd h4 (by simp)
        | some rs2 =>
          rw [hrest] at h4
          have h3 : some (rs1 ++ rs2) = some rs := h4
          cases h3
          have h1 := rowResults_length fe (aRows.get ⟨fe.label, hl⟩) cols rs1 hr
          have h2 := ih rs2 hrest
          simp only [List.filter_cons, decide_eq_true_eq, hl, if_pos,
            List.length_append, List.length_cons, h1, h2]
          ring
    · have hget : aRows[fe.label]? = none := List.getElem?_eq_none (by omega)
      rw [hget] at h
      have h2 := ih rs h
      simp only [List.filter_cons, decide_eq_true_eq, hl, if_false, h2]

/-- C6 counterexample: in `exForecast`/`exActual` the forecast row with
time key 2 has a corresponding actual row with time key 2 (both tables
contain a date-2 row), yet the detection result contains no row with
date 2 — the single emitted row pairs the date-1 forecast row with the
date-2 actual row, because `_compare_all_metrics` matches rows by
dataframe index label, not by time key. -/
theorem C6_counterexample :
    detect exForecast exActual
      = Except.ok [⟨1, 7, ⟨8, 10, 5, 20, Status.IN_RANGE, 0⟩⟩]
    ∧ exForecast.rows.map FEntry.date = [1, 2]
    ∧ exActual.rows.map AEntry.date = [2]
    ∧ ¬ (2 ∈ ([⟨1, 7, ⟨8, 10, 5, 20, Status.IN_RANGE, 0⟩⟩] : List RRow).map RRow.date) := by
  decide

/-- C6 witness: `C6_amended` at the concrete example tables — one
in-range forecast row, one metric column, one result row. -/
theorem C6_witness :
    ([⟨1, 7, ⟨8, 10, 5, 20, Status.IN_RANGE, 0⟩⟩] : List RRow).length
      = (exForecast.rows.filter
          (fun fe => decide (fe.label < exActual.rows.length))).length
          * (allColumns exForecast exActual).length :=
  (C6_amended (allColumns exForecast exActual) exActual.rows exForecast.rows
      [⟨1, 7, ⟨8, 10, 5, 20, Status.IN_RANGE, 0⟩⟩] (by decide)).1

theorem cumsumFrom_length (acc : ℚ) (l : List ℚ) :
    (cumsumFrom acc l).length = l.length := by
  induction l generalizing acc with
  | nil => rfl
  | cons x xs ih => simp [cumsumFrom, ih]

theorem cumsum_length (l : List ℚ) : (cumsum l).length = l.length :=
  cumsumFrom_length 0 l

/-- The `i`-th running sum is the sum of the first `i + 1` values. -/
theorem cumsumFrom_get : ∀ (l : List ℚ) (acc : ℚ) (i : ℕ)
    (h : i < (cumsumFrom acc l).length),
    (cumsumFrom acc l).get ⟨i, h⟩ = acc + (l.take (i + 1)).sum := by
  intro l
  induction l with
  | nil => intro acc i h; simp [cumsumFrom] at h
  | cons x xs ih =>
    intro acc i h
    cases i with
    | zero => simp [cumsumFrom]
    | succ i =>
      have hh : i < (cumsumFrom (acc + x) xs).length := by
        simpa [cumsumFrom] using h
      calc (cumsumFrom acc (x :: xs)).get ⟨i + 1, h⟩
          = (cumsumFrom (acc + x) xs).get ⟨i, hh⟩ := rfl
        _ = (acc + x) + (xs.take (i + 1)).sum := ih (acc + x) i hh
        _ = acc + ((x :: xs).take (i + 1 + 1)).sum := by
            simp [List.take_succ_cons, add_assoc]

theorem cumsum_get (l : List ℚ) (i : ℕ) (h : i < (cumsum l).length) :
    (cumsum l).get ⟨i, h⟩ = (l.take (i + 1)).sum := by
  simpa using cumsumFrom_get l 0 i h

/-- Prefix sums of a list of positive values are strictly increasing in
the prefix length (while it keeps growing). -/
theorem take_sum_lt (l : List ℚ) (hpos : ∀ x ∈ l, 0 < x) (i j : ℕ)
    (hij : i < j) (hj : j ≤ l.length) :
    (l.take i).sum < (l.take j).sum := by
  have hdecomp : l.take j = l.take i ++ (l.drop i).take (j - i) := by
    rw [← List.take_add]
    congr 1
    omega
  rw [hdecomp, List.sum_append]
  have hne : (l.drop i).take (j - i) ≠ [] := by
    intro hh
    have := congrArg List.length hh
    simp only [List.length_take, List.length_drop, List.length_nil] at this
    omega
  have hposd : ∀ x ∈ (l.drop i).take (j - i), 0 < x := by
    intro x hx
    exact hpos x (List.mem_of_mem_drop (List.mem_of_mem_take hx))
  have := List.sum_pos _ hposd hne
  linarith

theorem cumsum_get_lt (l : List ℚ) (hpos : ∀ x ∈ l, 0 < x) (i j : ℕ)
    (hij : i < j) (hi : i < (cumsum l).length) (hj : j < (cumsum l).length) :
    (cumsum l).get ⟨i, hi⟩ < (cumsum l).get ⟨j, hj⟩ := by
  rw [cumsum_get, cumsum_get]
  exact take_sum_lt l hpos (i + 1) (j + 1) (by omega)
    (by rw [cumsum_length] at hj; omega)

/-- `Series.min` bounds every member. -/
theorem listMin_le_of_mem : ∀ {l : List ℚ} {x : ℚ}, x ∈ l → listMin l ≤ x := by
  intro l
  induction l with
  | nil => intro x hx; cases hx
  | cons a t ih =>
    intro x hx
    cases t with
    | nil =>
      rcases List.mem_singleton.mp hx with rfl
      exact le_refl _
    | cons b t2 =>
      rcases List.mem_cons.mp hx with rfl | hx2
      · exact min_le_left _ _
      · exact le_trans (min_le_right _ _) (ih hx2)

/-- Nonempty input with nonzero total takes the filtering branch of the
post-detection cumulative filter. -/
theorem cumThresholdPost_of_ne (thr : ℚ) (rows : List (ℕ × ℚ)) (hne : rows ≠ [])
    (htot : (rows.map Prod.snd).sum ≠ 0) :
    cumThresholdPost thr rows
      = rows.filter (fun p => decide (postCutoff thr rows ≤ p.2)) := by
  simp [cumThresholdPost, List.isEmpty_iff, hne, htot]

/-- Key bound for the post-detection filter: an entry sitting at a sorted
position whose cumulative share is within the threshold — or at the top
position — is at least `min_threshold`, hence retained. -/
theorem postCutoff_le (thr : ℚ) (rows : List (ℕ × ℚ)) (hpos : ∀ p ∈ rows, 0 < p.2)
    (i : ℕ) (e : ℕ × ℚ) (hie : (sortVDesc rows)[i]? = some e)
    (hcond : (∃ c, (cumsum ((sortVDesc rows).map Prod.snd))[i]? = some c
          ∧ c / (rows.map Prod.snd).sum ≤ thr)
        ∨ i = 0) :
    postCutoff thr rows ≤ e.2 := by
  rcases List.getElem?_eq_some_iff.mp hie with ⟨hilen, hi_get⟩
  have hperm : List.Perm (sortVDesc rows) rows := List.perm_insertionSort _ _
  have hpossv : ∀ q ∈ (sortVDesc rows).map Prod.snd, 0 < q := by
    intro q hq
    rcases List.mem_map.mp hq with ⟨x, hx, rfl⟩
    exact hpos x (hperm.mem_iff.mp hx)
  have hclen : (cumsum ((sortVDesc rows).map Prod.snd)).length
      = (sortVDesc rows).length := by
    rw [cumsum_length, List.length_map]
  have hsvi : ((sortVDesc rows).map Prod.snd)[i]? = some e.2 := by
    rw [List.getElem?_map, hie]
    rfl
  simp only [postCutoff]
  set k := (cumsum ((sortVDesc rows).map Prod.snd)).findIdx
      (fun c => decide (thr ≤ c / (rows.map Prod.snd).sum)) with hkdef
  by_cases hklt : k < (cumsum ((sortVDesc rows).map Prod.snd)).length
  · rw [if_pos hklt]
    have hik : i ≤ k := by
      rcases hcond with ⟨c, hc, hcle⟩ | hz
      · by_contra hgt
        push_neg at hgt
        have h0b := @List.findIdx_getElem _
          (fun c => decide (thr ≤ c / (rows.map Prod.snd).sum))
          (cumsum ((sortVDesc rows).map Prod.snd)) (by rw [← hkdef]; exact hklt)
        have hTk : thr ≤ (cumsum ((sortVDesc rows).map Prod.snd)).get ⟨k, hklt⟩
            / (rows.map Prod.snd).sum := of_decide_eq_true h0b
        have hic : i < (cumsum ((sortVDesc rows).map Prod.snd)).length := by
          rw [hclen]; exact hilen
        have hmono := cumsum_get_lt ((sortVDesc rows).map Prod.snd) hpossv
          k i hgt hklt hic
        have hcg : c = (cumsum ((sortVDesc rows).map Prod.snd)).get ⟨i, hic⟩ := by
          rcases List.getElem?_eq_some_iff.mp hc with ⟨h2, h3⟩
          exact h3.symm
        have hT : 0 < (rows.map Prod.snd).sum := by
          have hsne : (sortVDesc rows).map Prod.snd ≠ [] := by
            intro hh
            rw [hh] at hsvi
            cases hsvi
          have h2 : 0 < ((sortVDesc rows).map Prod.snd).sum :=
            List.sum_pos _ hpossv hsne
          rwa [(hperm.map Prod.snd).sum_eq] at h2
        have hdiv : (cumsum ((sortVDesc rows).map Prod.snd)).get ⟨k, hklt⟩
              / (rows.map Prod.snd).sum
            < (cumsum ((sortVDesc rows).map Prod.snd)).get ⟨i, hic⟩
              / (rows.map Prod.snd).sum := by
          gcongr
        rw [hcg] at hcle
        linarith
      · omega
    have hmaplen : i < ((sortVDesc rows).map Prod.snd).length := by
      rw [List.length_map]; exact hilen
    have hlt : i < ((((sortVDesc rows).map Prod.snd)).take (k + 1)).length := by
      rw [List.length_take]
      omega
    have hval : ((((sortVDesc rows).map Prod.snd)).take (k + 1)).get ⟨i, hlt⟩ = e.2 := by
      have h4 : ((((sortVDesc rows).map Prod.snd)).take (k + 1)).get ⟨i, hlt⟩
          = ((sortVDesc rows).map Prod.snd).get ⟨i, hmaplen⟩ := by
        simp [List.get_eq_getElem, List.getElem_take]
      rw [h4]
      rcases List.getElem?_eq_some_iff.mp hsvi with ⟨h5, h6⟩
      exact h6
    have hmem : e.2 ∈ (((sortVDesc rows).map Prod.snd)).take (k + 1) := by
      rw [← hval]
      exact List.get_mem _ _ _
    exact listMin_le_of_mem hmem
  · rw [if_neg hklt]
    have hmem : e.2 ∈ (sortVDesc rows).map Prod.snd := by
      rcases List.getElem?_eq_some_iff.mp hsvi with ⟨h5, h6⟩
      rw [← h6]
      exact List.getElem_mem _
    exact listMin_le_of_mem hmem

/-- Every metric the pre-detection filter keeps comes from a sorted
position whose cumulative share is within the threshold, or is the
top-ranked fallback. -/
theorem preSelect_mem (thr : ℚ) (vals : List (ℕ × ℚ)) (hne : vals ≠ [])
    (htot : ((sortVDesc vals).map Prod.snd).sum ≠ 0) {n : ℕ}
    (hn : n ∈ preSelect thr vals) :
    ∃ i e, (sortVDesc vals)[i]? = some e ∧ e.1 = n
      ∧ ((∃ c, (cumsum ((sortVDesc vals).map Prod.snd))[i]? = some c
            ∧ c / ((sortVDesc vals).map Prod.snd).sum ≤ thr)
          ∨ i = 0) := by
  have h1 : vals.isEmpty = false := by simp [List.isEmpty_iff, hne]
  simp only [preSelect, h1, Bool.false_eq_true, if_false, htot, ite_false] at hn
  cases hkeep : (((sortVDesc vals).zip (cumsum ((sortVDesc vals).map Prod.snd))).filter
      (fun pc => decide (pc.2 / ((sortVDesc vals).map Prod.snd).sum ≤ thr))).map
      (fun pc => pc.1.1) with
  | nil =>
    rw [hkeep] at hn
    cases hs : sortVDesc vals with
    | nil =>
      exfalso
      apply hne
      have hlen2 : (sortVDesc vals).length = vals.length :=
        (List.perm_insertionSort (fun x y : ℕ × ℚ => y.2 ≤ x.2) vals).length_eq
      rw [hs] at hlen2
      exact List.length_eq_zero.mp hlen2.symm
    | cons s srest =>
      rw [hs] at hn
      have hn2 : n ∈ [s.1] := hn
      rcases List.mem_singleton.mp hn2 with rfl
      exact ⟨0, s, by simp, rfl, Or.inr rfl⟩
  | cons a as =>
    rw [hkeep] at hn
    have hn2 : n ∈ a :: as := hn
    rw [← hkeep] at hn2
    rcases List.mem_map.mp hn2 with ⟨pc, hpcmem, rfl⟩
    rcases List.mem_filter.mp hpcmem with ⟨hzipmem, hpred⟩
    rcases List.mem_iff_get.mp hzipmem with ⟨j, hj⟩
    have hjs : j.1 < (sortVDesc vals).length := by
      have hj2 := j.2
      simpa [List.length_zip, cumsum_length, List.length_map, min_self] using hj2
    have hjc : j.1 < (cumsum ((sortVDesc vals).map Prod.snd)).length := by
      rw [cumsum_length, List.length_map]; exact hjs
    have hjget : ((sortVDesc vals).zip (cumsum ((sortVDesc vals).map Prod.snd))).get j
        = ((sortVDesc vals).get ⟨j.1, hjs⟩,
           (cumsum ((sortVDesc vals).map Prod.snd)).get ⟨j.1, hjc⟩) := by
      simp [List.get_eq_getElem, List.getElem_zip]
    refine ⟨j.1, (sortVDesc vals).get ⟨j.1, hjs⟩,
        List.getElem?_eq_some_iff.mpr ⟨hjs, rfl⟩, ?_, Or.inl
          ⟨(cumsum ((sortVDesc vals).map Prod.snd)).get ⟨j.1, hjc⟩,
           List.getElem?_eq_some_iff.mpr ⟨hjc, rfl⟩, ?_⟩⟩
    · rw [← hj, hjget]
    · have hple := of_decide_eq_true hpred
      rw [← hj, hjget] at hple
      exact hple

/-- C4 (amended): the two cumulative selections both rank by the
per-metric ranking value descending and cut by cumulative share, but they
implement different cutoff rules — the post-detection filter keeps every
metric with value at least the value at the first rank whose share
reaches `threshold_pct` (mask `>=`), while the pre-detection filter keeps
only the metrics whose cumulative share stays within `threshold_pct`
(mask `<=`, top-1 fallback) — so they do not retain the same set in
general; for strictly positive ranking values, every metric the
pre-detection filter retains is also retained by the post-detection
filter. -/
theorem C4_amended (thr : ℚ) (vals : List (ℕ × ℚ)) (hpos : ∀ p ∈ vals, 0 < p.2) :
    ∀ n ∈ preSelect thr vals, n ∈ (cumThresholdPost thr vals).map Prod.fst := by
  intro n hn
  have hne : vals ≠ [] := by
    rintro rfl
    simp [preSelect] at hn
  have hperm : List.Perm (sortVDesc vals) vals := List.perm_insertionSort _ _
  have hpossv : ∀ q ∈ (sortVDesc vals).map Prod.snd, 0 < q := by
    intro q hq
    rcases List.mem_map.mp hq with ⟨x, hx, rfl⟩
    exact hpos x (hperm.mem_iff.mp hx)
  have hsne : (sortVDesc vals).map Prod.snd ≠ [] := by
    intro hh
    apply hne
    have hlen2 : (sortVDesc vals).length = vals.length := hperm.length_eq
    rw [List.map_eq_nil_iff.mp hh] at hlen2
    exact List.length_eq_zero.mp hlen2.symm
  have htots : 0 < ((sortVDesc vals).map Prod.snd).sum :=
    List.sum_pos _ hpossv hsne
  have htotv : (vals.map Prod.snd).sum = ((sortVDesc vals).map Prod.snd).sum :=
    ((hperm.map Prod.snd).sum_eq).symm
  rcases preSelect_mem thr vals hne htots.ne' hn with ⟨i, e, hie, hen, hcond⟩
  have hcut : postCutoff thr vals ≤ e.2 := by
    apply postCutoff_le thr vals hpos i e hie
    rcases hcond with ⟨c, hc, hcle⟩ | hz
    · exact Or.inl ⟨c, hc, by rw [htotv]; exact hcle⟩
    · exact Or.inr hz
  have hev : e ∈ vals := by
    have hes : e ∈ sortVDesc vals := by
      rcases List.getElem?_eq_some_iff.mp hie with ⟨h2, h3⟩
      rw [← h3]
      exact List.getElem_mem _
    exact hperm.mem_iff.mp hes
  rw [cumThresholdPost_of_ne thr vals hne (by rw [htotv]; exact htots.ne')]
  rw [← hen]
  exact List.mem_map.mpr ⟨e, List.mem_filter.mpr ⟨hev, decide_eq_true hcut⟩, rfl⟩

/-- C3 (code-bug evaluation at the spec's own scenario): on volumes
`{a: 5000, b: 3000, c: 100, d: 50}` with `threshold_pct = 0.95`, the
pre-detection `CumulativeThresholdFilter` retains only `{a}` — whose
share `5000/8150 ≈ 0.61` is *below* the threshold, contradicting the
claim, the spec (`retains {a, b}`, share never strictly less than the
threshold) and the filter's own docstring — while the detector's
post-detection cumulative filter retains `{a, b}` as specified. -/
theorem C3_pre_filter_share_below_threshold :
    preSelect (19/20) scenarioVolumes = [0]
    ∧ ¬ ((19:ℚ)/20 ≤ 5000 / (5000 + 3000 + 100 + 50))
    ∧ (cumThresholdPost (19/20) scenarioVolumes).map Prod.fst = [0, 1] := by
  decide

/-- C4 counterexample: on the same per-metric ranking values and
threshold, metric `b` (id 1) is retained by the post-detection filter but
dropped by the pre-detection filter, so the two selections do not retain
the same set. -/
theorem C4_counterexample :
    1 ∈ (cumThresholdPost (19/20) scenarioVolumes).map Prod.fst
    ∧ 1 ∉ preSelect (19/20) scenarioVolumes := by decide

/-- C4 witness: `C4_amended` applied at the scenario volumes — metric
`a` (id 0) is kept by the pre-detection filter and, by the theorem, by
the post-detection filter. -/
theorem C4_witness :
    0 ∈ preSelect (19/20) scenarioVolumes
    ∧ 0 ∈ (cumThresholdPost (19/20) scenarioVolumes).map Prod.fst :=
  ⟨by decide, C4_amended (19/20) scenarioVolumes (by decide) 0 (by decide)⟩

end Chronomaly
